import Mathlib

/-!
# Verification of the wordpress-infra deployment pipeline specification

This development shallowly embeds the CodePipeline wiring declared by the
four `MyCdkWordpressStack` variants of the repository
(`src/lib/my-cdk-wordpress-stack.ts`, two variants, and
`src/unnamed/part_000`, two variants), together with the pipeline-engine
and rollout-controller semantics described by the specification, and
settles the spec's claims against them.

The stack variants are declarative resource graphs: each wires a
`codepipeline.Pipeline` out of stages, actions, input/output artifacts and
CodeBuild environment variables.  Those declarations are translated here
verbatim into Lean data.  The pipeline execution engine and the rollout
controller are AWS services not present in the repository, so they are
modelled from the specification's own description (each such definition is
marked `Modelled from the spec:`).
-/

namespace WordpressInfra

/-! ## Data model: pipelines as declared by the CDK stacks -/

/-- The kind of a CodePipeline action, as constructed in the source
(`GitHubSourceAction`, `CodeCommitSourceAction`, `CodeBuildAction`,
`EcsDeployAction`). -/
inductive ActionKind where
  | gitHubSource
  | codeCommitSource
  | codeBuild
  | ecsDeploy
deriving DecidableEq, Repr

/-- An environment value of a CodeBuild project or action configuration:
either a literal string written in the stack source, or a reference to a
named secret (`secretsmanager.Secret.fromSecretNameV2(...).secretValue`). -/
inductive EnvValue where
  | literal (s : String)
  | secretRef (name : String)
deriving DecidableEq, Repr

/-- A pipeline action: its kind, `actionName`, declared input artifact
names, declared output artifact names, and environment (the CodeBuild
project's `environmentVariables`, plus secret-valued configuration such as
`oauthToken`). -/
structure Action where
  kind : ActionKind
  actionName : String
  inputs : List String
  outputs : List String
  env : List (String × EnvValue)
deriving DecidableEq, Repr

/-- A pipeline stage as passed to `pipeline.addStage`: a `stageName` and
its list of actions. -/
structure Stage where
  stageName : String
  actions : List Action
deriving DecidableEq, Repr

/-- A pipeline: the `pipelineName` and the ordered list of stages added via
`pipeline.addStage`. -/
structure Pipeline where
  pipelineName : String
  stages : List Stage
deriving DecidableEq, Repr

/-- All action names of a stage. -/
def stageActionNames (st : Stage) : List String :=
  st.actions.map (fun a => a.actionName)

/-- The union (as a concatenated list) of the output artifact names
declared by a stage's actions. -/
def stageOutputs (st : Stage) : List String :=
  (st.actions.map (fun a => a.outputs)).flatten

/-- The union of the input artifact names declared by a stage's actions. -/
def stageInputs (st : Stage) : List String :=
  (st.actions.map (fun a => a.inputs)).flatten

/-! ## The four pipeline variants, translated from the stack sources

Variant 1 of `src/lib/my-cdk-wordpress-stack.ts` (lines 12-285): stages
Source, Deploy-Infrastructure, Test, Build-Container, Deploy-Application.
The Docker build project's `environmentVariables` (lines 102-109) are all
literal strings, including the DockerHub credentials. -/

/-- `environmentVariables` of `DockerBuildProject` in the first
`src/lib/my-cdk-wordpress-stack.ts` variant (lines 102-109). -/
def dockerBuildEnvLib1 : List (String × EnvValue) :=
  [ ("DOCKER_HUB_USERNAME", .literal "ashish8979"),
    ("DOCKER_HUB_PASSWORD", .literal "ashishchaudhary-12345"),
    ("AWS_DEFAULT_REGION", .literal "ap-south-1"),
    ("AWS_ACCOUNT_ID", .literal "975826764450"),
    ("IMAGE_REPO_NAME", .literal "my-wordpress-app"),
    ("IMAGE_TAG", .literal "latest") ]

/-- GitHub source actions carry the token secret by reference:
`oauthToken: githubTokenSecret.secretValue`, where `githubTokenSecret`
is `Secret.fromSecretNameV2(this, GithubToken, github-token)`. -/
def githubOauthEnv : List (String × EnvValue) :=
  [ ("oauthToken", .secretRef "github-token") ]

/-- Pipeline of the first `src/lib/my-cdk-wordpress-stack.ts` variant
(`MyWordpressPipeline`, lines 205-283). -/
def pipelineLibVariant1 : Pipeline :=
  { pipelineName := "WordpressPipeline",
    stages :=
      [ { stageName := "Source",
          actions :=
            [ { kind := .gitHubSource, actionName := "Infra_Source",
                inputs := [], outputs := ["InfraSourceOutput"],
                env := githubOauthEnv },
              { kind := .gitHubSource, actionName := "App_Source",
                inputs := [], outputs := ["AppSourceOutput"],
                env := githubOauthEnv } ] },
        { stageName := "Deploy-Infrastructure",
          actions :=
            [ { kind := .codeBuild, actionName := "Infra_Deploy",
                inputs := ["InfraSourceOutput"], outputs := [],
                env := [] } ] },
        { stageName := "Test",
          actions :=
            [ { kind := .codeBuild, actionName := "App_Tests",
                inputs := ["AppSourceOutput"], outputs := ["TestOutput"],
                env := [] } ] },
        { stageName := "Build-Container",
          actions :=
            [ { kind := .codeBuild, actionName := "Docker_Build",
                inputs := ["AppSourceOutput"], outputs := ["BuildOutput"],
                env := dockerBuildEnvLib1 } ] },
        { stageName := "Deploy-Application",
          actions :=
            [ { kind := .ecsDeploy, actionName := "ECS_Deploy",
                inputs := ["BuildOutput"], outputs := [],
                env := [] } ] } ] }

/-- `environmentVariables` of `DockerBuildProject` in the second
`src/lib/my-cdk-wordpress-stack.ts` variant (lines 372-375) and in the
first `src/unnamed/part_000` variant (lines 57-60): only the literal
DockerHub credentials. -/
def dockerBuildEnvHubOnly : List (String × EnvValue) :=
  [ ("DOCKER_HUB_USERNAME", .literal "ashish8979"),
    ("DOCKER_HUB_PASSWORD", .literal "ashishchaudhary-12345") ]

/-- Pipeline of the second `src/lib/my-cdk-wordpress-stack.ts` variant
(lines 397-460): Source, Test, Build-and-Deploy-Infrastructure,
Build-Container — no application-deploy stage at all; the comment at line
459 relies on ECS re-pulling the `latest` registry tag as a side channel. -/
def pipelineLibVariant2 : Pipeline :=
  { pipelineName := "WordpressPipeline",
    stages :=
      [ { stageName := "Source",
          actions :=
            [ { kind := .codeCommitSource, actionName := "Infra_Source",
                inputs := [], outputs := ["InfraSourceOutput"],
                env := [] },
              { kind := .gitHubSource, actionName := "App_Source",
                inputs := [], outputs := ["AppSourceOutput"],
                env := githubOauthEnv } ] },
        { stageName := "Test",
          actions :=
            [ { kind := .codeBuild, actionName := "Test",
                inputs := ["AppSourceOutput"], outputs := [],
                env := [] } ] },
        { stageName := "Build-and-Deploy-Infrastructure",
          actions :=
            [ { kind := .codeBuild, actionName := "InfraDeploy",
                inputs := ["InfraSourceOutput"], outputs := [],
                env := [] } ] },
        { stageName := "Build-Container",
          actions :=
            [ { kind := .codeBuild, actionName := "Docker_Build",
                inputs := ["AppSourceOutput"], outputs := ["BuildOutput"],
                env := dockerBuildEnvHubOnly } ] } ] }

/-- Pipeline of the first `src/unnamed/part_000` variant (lines 108-158):
Source, Build-Container, Deploy.  The final Deploy stage's `CDK_Deploy`
action takes `infraSourceOutput` — a source artifact — as its input
(lines 148-158), not the `buildOutput` artifact of Build-Container. -/
def pipelineUnnamedVariant1 : Pipeline :=
  { pipelineName := "WordpressPipeline",
    stages :=
      [ { stageName := "Source",
          actions :=
            [ { kind := .gitHubSource, actionName := "Infra_Source",
                inputs := [], outputs := ["InfraSourceOutput"],
                env := githubOauthEnv },
              { kind := .gitHubSource, actionName := "App_Source",
                inputs := [], outputs := ["AppSourceOutput"],
                env := githubOauthEnv } ] },
        { stageName := "Build-Container",
          actions :=
            [ { kind := .codeBuild, actionName := "Docker_Build",
                inputs := ["AppSourceOutput"], outputs := ["BuildOutput"],
                env := dockerBuildEnvHubOnly } ] },
        { stageName := "Deploy",
          actions :=
            [ { kind := .codeBuild, actionName := "CDK_Deploy",
                inputs := ["InfraSourceOutput"], outputs := [],
                env := [] } ] } ] }

/-- `environmentVariables` of `DockerBuildProject` in the second
`src/unnamed/part_000` variant (lines 379-385): configuration values only
(the CDK tokens `this.region`, `this.account`, `ecrRepo.repositoryName`,
`ecrRepo.repositoryUri` are literal configuration strings at synth time,
not secrets). -/
def dockerBuildEnvUnnamed2 : List (String × EnvValue) :=
  [ ("AWS_DEFAULT_REGION", .literal "this.region"),
    ("AWS_ACCOUNT_ID", .literal "this.account"),
    ("IMAGE_REPO_NAME", .literal "my-wordpress-app"),
    ("IMAGE_TAG", .literal "latest"),
    ("REPOSITORY_URI", .literal "ecrRepo.repositoryUri") ]

/-- Pipeline of the second `src/unnamed/part_000` variant
(`wordpress-cicd-pipeline`, lines 524-592): stages Source, Test, Build,
Deploy; the Deploy stage's `EcsDeployAction` consumes `buildOutput`. -/
def pipelineUnnamedVariant2 : Pipeline :=
  { pipelineName := "wordpress-cicd-pipeline",
    stages :=
      [ { stageName := "Source",
          actions :=
            [ { kind := .gitHubSource, actionName := "Infra_Source",
                inputs := [], outputs := ["InfraSourceOutput"],
                env := githubOauthEnv },
              { kind := .gitHubSource, actionName := "App_Source",
                inputs := [], outputs := ["AppSourceOutput"],
                env := githubOauthEnv } ] },
        { stageName := "Test",
          actions :=
            [ { kind := .codeBuild, actionName := "Run_Tests",
                inputs := ["AppSourceOutput"], outputs := ["TestOutput"],
                env := [] } ] },
        { stageName := "Build",
          actions :=
            [ { kind := .codeBuild, actionName := "Build_Docker_Image",
                inputs := ["AppSourceOutput"], outputs := ["BuildOutput"],
                env := dockerBuildEnvUnnamed2 } ] },
        { stageName := "Deploy",
          actions :=
            [ { kind := .ecsDeploy, actionName := "Deploy_to_ECS",
                inputs := ["BuildOutput"], outputs := [],
                env := [] } ] } ] }

/-- The four pipeline variants of the repository. -/
def allPipelineVariants : List Pipeline :=
  [pipelineLibVariant1, pipelineLibVariant2,
   pipelineUnnamedVariant1, pipelineUnnamedVariant2]

/-! ## Pipeline engine

Modelled from the spec: the execution engine (AWS CodePipeline) is not part
of the repository; sections 4.3-4.4 of the spec describe it.  An execution
is driven by an `outcome` oracle mapping each action name to whether that
unit of work succeeds; the engine runs the stages strictly in order,
records which actions it invoked and which artifacts were produced, and
stops at the first failed stage. -/

/-- Modelled from the spec: terminal status of one Execution — `Succeeded`,
or `Failed` carrying the name of the failing stage (section 4.4; explicit
cancellation is not modelled, no claim mentions it). -/
inductive ExecStatus where
  | Succeeded
  | Failed (failedStage : String)
deriving DecidableEq, Repr

/-- A stage succeeds when every one of its actions succeeds (section 4.3:
fail-fast at the stage boundary). -/
def stageOk (outcome : String → Bool) (st : Stage) : Bool :=
  st.actions.all (fun a => outcome a.actionName)

/-- Modelled from the spec: the artifacts a stage writes to the artifact
store — each action that runs to success produces exactly its declared
outputs; a failed action produces none (section 4.2). -/
def stageArtifacts (outcome : String → Bool) (st : Stage) : List String :=
  ((st.actions.filter (fun a => outcome a.actionName)).map
    (fun a => a.outputs)).flatten

/-- Result of running one Execution: its terminal status, the names of all
actions that were invoked, and the artifact names present in the store. -/
structure RunResult where
  status : ExecStatus
  invoked : List String
  artifacts : List String
deriving DecidableEq, Repr

/-- Modelled from the spec: sequential stage execution (sections 4.3-4.4).
Stages run in order; a stage's actions are all dispatched (invoked)
together; if every action succeeds the stage's outputs are added to the
store and the next stage runs, otherwise the execution terminates Failed at
that stage (already-started sibling actions still finish and record their
outputs). -/
def runStages (outcome : String → Bool) (avail : List String)
    (inv : List String) : List Stage → RunResult
  | [] => ⟨.Succeeded, inv, avail⟩
  | st :: rest =>
    let inv2 := inv ++ stageActionNames st
    if stageOk outcome st then
      runStages outcome (avail ++ stageOutputs st) inv2 rest
    else
      ⟨.Failed st.stageName, inv2, avail ++ stageArtifacts outcome st⟩

/-- Modelled from the spec: run one Execution of a pipeline from an empty
artifact store. -/
def runExec (outcome : String → Bool) (p : Pipeline) : RunResult :=
  runStages outcome [] [] p.stages

/-- Modelled from the spec: the prefix of stages that actually start in an
Execution — every stage up to and including the first failed one. -/
def startedStages (outcome : String → Bool) : List Stage → List Stage
  | [] => []
  | st :: rest =>
    if stageOk outcome st then st :: startedStages outcome rest else [st]

/-- Modelled from the spec: the artifact-store contents at the moment stage
number `k` (0-based) is entered, i.e. after the first `k` stages ran. -/
def availBefore (outcome : String → Bool) (p : Pipeline) (k : Nat) :
    List String :=
  (runStages outcome [] [] (p.stages.take k)).artifacts

/-! ## Pipeline-build-time validation and the checked runner

Modelled from the spec: section 3 (Action invariant) demands that no action
declare an input that no earlier stage produces, validated at
pipeline-build time; section 4.2 demands the Action Runner fail fast with
`MissingInput` when a declared input cannot be resolved at run time. -/

/-- Every input declared by the stage's actions is available. -/
def stageInputsOk (avail : List String) (st : Stage) : Bool :=
  st.actions.all (fun a => a.inputs.all (fun i => avail.contains i))

/-- Modelled from the spec: pipeline-build-time wiring validation —
walking the stages in order, every action's declared inputs must be among
the outputs declared by earlier stages (section 3). -/
def wellWiredFrom (produced : List String) : List Stage → Bool
  | [] => true
  | st :: rest =>
    stageInputsOk produced st && wellWiredFrom (produced ++ stageOutputs st) rest

/-- A pipeline is well-wired when validation passes starting from an empty
artifact universe. -/
def wellWired (p : Pipeline) : Bool :=
  wellWiredFrom [] p.stages

/-- Modelled from the spec: terminal status of the checked runner, which
additionally fails fast with `missingInput` before executing a stage whose
declared inputs are not all resolvable (section 4.2). -/
inductive CheckedStatus where
  | succeeded
  | failed (stage : String)
  | missingInput (stage : String)
deriving DecidableEq, Repr

/-- Modelled from the spec: sequential execution with run-time input
resolution — on stage entry each action's declared inputs are resolved
from the store, failing fast with `missingInput` if any is absent. -/
def runCheckedStages (outcome : String → Bool) (avail : List String) :
    List Stage → CheckedStatus
  | [] => .succeeded
  | st :: rest =>
    if stageInputsOk avail st then
      if stageOk outcome st then
        runCheckedStages outcome (avail ++ stageOutputs st) rest
      else
        .failed st.stageName
    else
      .missingInput st.stageName

/-- Modelled from the spec: checked run of a whole pipeline. -/
def runChecked (outcome : String → Bool) (p : Pipeline) : CheckedStatus :=
  runCheckedStages outcome [] p.stages

/-! ## Execution serialization

Modelled from the spec: section 4.4 — concurrent Executions of the same
Pipeline are serialized; a newly triggered Execution queues (Pending)
behind an in-flight one.  The scheduler state is the ordered list of this
pipeline's Executions with their phases. -/

/-- Modelled from the spec: the phase of one Execution as seen by the
engine's scheduler (`done` stands for any terminal state). -/
inductive ExecPhase where
  | pending
  | running
  | done
deriving DecidableEq, Repr

/-- Number of Executions currently in the `running` phase. -/
def countRunning (l : List ExecPhase) : Nat :=
  (l.filter (fun e => e == ExecPhase.running)).length

/-- Promote the first pending Execution (FIFO order) to running. -/
def promoteFirstPending : List ExecPhase → List ExecPhase
  | [] => []
  | ExecPhase.pending :: rest => ExecPhase.running :: rest
  | e :: rest => e :: promoteFirstPending rest

/-- Modelled from the spec: an Execution is promoted to running only when
no other Execution of the same pipeline is running. -/
def promote (l : List ExecPhase) : List ExecPhase :=
  if countRunning l == 0 then promoteFirstPending l else l

/-- Modelled from the spec: scheduler events — a new trigger fires for the
pipeline, or the in-flight Execution reaches a terminal state. -/
inductive SchedEvent where
  | trigger
  | finishRunning
deriving DecidableEq, Repr

/-- Modelled from the spec: one scheduler transition.  A trigger enqueues a
Pending Execution; completion marks the running Execution terminal; in both
cases the head of the queue is promoted if nothing is running. -/
def schedStep (l : List ExecPhase) : SchedEvent → List ExecPhase
  | .trigger => promote (l ++ [ExecPhase.pending])
  | .finishRunning =>
    promote (l.map (fun e => if e == ExecPhase.running then ExecPhase.done else e))

/-- Modelled from the spec: run the scheduler from an empty history over a
sequence of events. -/
def schedRun (evts : List SchedEvent) : List ExecPhase :=
  evts.foldl schedStep []

/-! ## Rollout Controller

Modelled from the spec: section 4.5 — the Rollout Controller (AWS ECS
rolling deployment) is not part of the repository; only its configuration
is (the `FargateService` declaration of the second `src/unnamed/part_000`
variant, lines 252-263). -/

/-- The ServiceTarget configuration: desired replica count, healthy-percent
bounds during rollout, health-check grace period, and the current image
reference. -/
structure ServiceTarget where
  desiredCount : Nat
  minHealthyPercent : Nat
  maxHealthyPercent : Nat
  healthCheckGracePeriodSeconds : Nat
  imageRef : String
deriving DecidableEq, Repr

/-- ServiceTarget declared by `fargateService` in the second
`src/unnamed/part_000` variant (lines 252-263): `desiredCount: 2`,
`minHealthyPercent: 50`, `maxHealthyPercent: 200`,
`healthCheckGracePeriod: 300` seconds, serving the `latest` ECR tag. -/
def wordpressServiceTarget : ServiceTarget :=
  { desiredCount := 2,
    minHealthyPercent := 50,
    maxHealthyPercent := 200,
    healthCheckGracePeriodSeconds := 300,
    imageRef := "my-wordpress-app:latest" }

/-- `ceil(desiredCount * minHealthyPercent / 100)` — the floor on healthy
instances during a rolling update (spec section 4.5, step 3). -/
def minBound (t : ServiceTarget) : Nat :=
  (t.desiredCount * t.minHealthyPercent + 99) / 100

/-- `floor(desiredCount * maxHealthyPercent / 100)` — the ceiling on
healthy instances during a rolling update (spec section 4.5, step 3). -/
def maxBound (t : ServiceTarget) : Nat :=
  t.desiredCount * t.maxHealthyPercent / 100

/-- Modelled from the spec: rollout state — how many healthy instances run
the old image and how many run the new one. -/
structure RolloutState where
  oldHealthy : Nat
  newHealthy : Nat
deriving DecidableEq, Repr

/-- Total count of healthy instances. -/
def healthyTotal (s : RolloutState) : Nat :=
  s.oldHealthy + s.newHealthy

/-- Modelled from the spec: one incremental-replacement step of the
Rollout Controller with passing health checks (section 4.5, step 3): start
a new-image instance while more are needed and the surge ceiling permits;
otherwise retire an old-image instance while the healthy floor permits. -/
def rolloutStep (t : ServiceTarget) (s : RolloutState) : RolloutState :=
  if s.newHealthy < t.desiredCount && healthyTotal s < maxBound t then
    { s with newHealthy := s.newHealthy + 1 }
  else if 0 < s.oldHealthy && minBound t < healthyTotal s then
    { s with oldHealthy := s.oldHealthy - 1 }
  else
    s

/-- Modelled from the spec: one step of the rollout dynamics.  When the new
image's health checks pass the controller makes incremental progress; when
they never pass, each started instance fails its check after the grace
period and is terminated without ever counting as healthy, so the healthy
population is unchanged (section 4.5, step 4). -/
def rolloutDynStep (t : ServiceTarget) (healthOk : Bool) (s : RolloutState) :
    RolloutState :=
  if healthOk then rolloutStep t s else s

/-- Modelled from the spec: iterate the rollout dynamics for `n` steps. -/
def rolloutRun (t : ServiceTarget) (healthOk : Bool) :
    Nat → RolloutState → RolloutState
  | 0, s => s
  | n + 1, s => rolloutRun t healthOk n (rolloutDynStep t healthOk s)

/-- The rollout has converged: 100% of `desiredCount` instances are healthy
on the new image and no old-image instance remains. -/
def converged (t : ServiceTarget) (s : RolloutState) : Bool :=
  s.newHealthy == t.desiredCount && s.oldHealthy == 0

/-- Modelled from the spec: result of one rollout (section 4.5, step 5). -/
inductive RolloutResult where
  | succeeded
  | failed
deriving DecidableEq, Repr

/-- Modelled from the spec: the record a finished rollout leaves behind —
its result, the final instance state, the rollback candidate recorded in
step 1, and the image reference the ServiceTarget desires afterwards. -/
structure RolloutRecord where
  result : RolloutResult
  finalState : RolloutState
  rollbackCandidate : String
  serviceImage : String
deriving DecidableEq, Repr

/-- Modelled from the spec: the whole Rollout Controller (section 4.5).
It records the current image as rollback candidate, points the service at
the new image, runs the bounded rolling replacement for at most
`timeoutSteps` steps, and reports `succeeded` exactly when the service
converged within the timeout; on failure it does not touch the service
again — the desired image stays the new one and no rollback happens. -/
def runRollout (t : ServiceTarget) (newImage : String) (healthOk : Bool)
    (timeoutSteps : Nat) : RolloutRecord :=
  let s0 : RolloutState := { oldHealthy := t.desiredCount, newHealthy := 0 }
  let sf := rolloutRun t healthOk timeoutSteps s0
  { result := if converged t sf then .succeeded else .failed,
    finalState := sf,
    rollbackCandidate := t.imageRef,
    serviceImage := newImage }

/-- Modelled from the spec: rollback is a distinct, explicitly triggered
operation that redeploys the recorded prior image reference through the
same algorithm (section 4.5, step 5). -/
def rollback (t : ServiceTarget) (rec : RolloutRecord) (healthOk : Bool)
    (timeoutSteps : Nat) : RolloutRecord :=
  runRollout t rec.rollbackCandidate healthOk timeoutSteps

/-! ## Secret detection in action environments -/

/-- Whether the first list is an initial segment of the second. -/
def charsStartWith : List Char → List Char → Bool
  | [], _ => true
  | _ :: _, [] => false
  | p :: ps, c :: cs => p == c && charsStartWith ps cs

/-- Whether `pat` occurs as a contiguous segment of the second list. -/
def charsHaveSub (pat : List Char) : List Char → Bool
  | [] => charsStartWith pat []
  | c :: rest => charsStartWith pat (c :: rest) || charsHaveSub pat rest

/-- A key names credential material when it mentions PASSWORD, TOKEN or
SECRET (the spec's examples of secret values: credential, token,
password). -/
def secretLikeKey (k : String) : Bool :=
  charsHaveSub "PASSWORD".toList k.toList ||
  charsHaveSub "TOKEN".toList k.toList ||
  charsHaveSub "SECRET".toList k.toList

/-- Whether an environment value is a literal string (as opposed to a
reference to a named secret). -/
def isLiteralValue : EnvValue → Bool
  | .literal _ => true
  | .secretRef _ => false

/-- The `(actionName, key)` pairs of one action whose credential-like
environment keys carry literal values. -/
def actionLiteralSecrets (a : Action) : List (String × String) :=
  (a.env.filter (fun kv => secretLikeKey kv.1 && isLiteralValue kv.2)).map
    (fun kv => (a.actionName, kv.1))

/-- All `(actionName, key)` pairs of a pipeline where a credential-like
environment key is bound to a literal value rather than a secret
reference. -/
def literalSecretEnvEntries (p : Pipeline) : List (String × String) :=
  (p.stages.map (fun st => (st.actions.map actionLiteralSecrets).flatten)).flatten

/-! ## Engine lemmas -/

/-- The actions an Execution invokes are exactly those of the stages that
started, in order. -/
theorem runStages_invoked (outcome : String → Bool) (stages : List Stage) :
    ∀ avail inv, (runStages outcome avail inv stages).invoked =
      inv ++ ((startedStages outcome stages).map stageActionNames).flatten := by
  induction stages with
  | nil => intro avail inv; simp [runStages, startedStages]
  | cons st rest ih =>
    intro avail inv
    simp only [runStages, startedStages]
    by_cases h : stageOk outcome st
    · simp [h, ih, List.append_assoc]
    · simp [h]

/-- When every stage of the list succeeds, the artifacts after the run are
the initial store plus every declared stage output, in stage order. -/
theorem runStages_artifacts_all_ok (outcome : String → Bool)
    (stages : List Stage)
    (hok : ∀ st ∈ stages, stageOk outcome st = true) :
    ∀ avail inv, (runStages outcome avail inv stages).artifacts =
      avail ++ (stages.map stageOutputs).flatten := by
  induction stages with
  | nil => intro avail inv; simp [runStages]
  | cons st rest ih =>
    intro avail inv
    have hst : stageOk outcome st = true := hok st (by simp)
    have hrest : ∀ st ∈ rest, stageOk outcome st = true := by
      intro s hs; exact hok s (by simp [hs])
    simp only [runStages, hst, if_true]
    rw [ih hrest]
    simp [List.append_assoc]

/-- Every stage strictly before a started stage succeeded. -/
theorem startedStages_take (outcome : String → Bool) (stages : List Stage) :
    ∀ j, j < (startedStages outcome stages).length →
      ∀ st ∈ stages.take j, stageOk outcome st = true := by
  induction stages with
  | nil => intro j hj; simp [startedStages] at hj
  | cons st rest ih =>
    intro j hj
    by_cases h : stageOk outcome st
    · cases j with
      | zero => simp
      | succ j =>
        simp only [startedStages, h, if_true, List.length_cons,
          Nat.succ_lt_succ_iff] at hj
        intro s hs
        simp only [List.take_succ_cons, List.mem_cons] at hs
        rcases hs with rfl | hs
        · exact h
        · exact ih j hj s hs
    · have h' : stageOk outcome st = false := by simpa using h
      simp [startedStages, h'] at hj
      have hj0 : j = 0 := by omega
      subst hj0
      simp

/-- A pipeline that passes build-time wiring validation can never hit the
runner's `missingInput` branch, whatever the action outcomes. -/
theorem runCheckedStages_not_missing (outcome : String → Bool)
    (stages : List Stage) :
    ∀ avail, wellWiredFrom avail stages = true →
      ∀ s, runCheckedStages outcome avail stages ≠ CheckedStatus.missingInput s := by
  induction stages with
  | nil => intro avail _ s; simp [runCheckedStages]
  | cons st rest ih =>
    intro avail hw s
    simp only [wellWiredFrom, Bool.and_eq_true] at hw
    simp only [runCheckedStages, hw.1, if_true]
    by_cases h : stageOk outcome st
    · simp only [h, if_true]
      exact ih (avail ++ stageOutputs st) hw.2 s
    · simp [h]

/-! ## Rollout lemmas -/

/-- The healthy-instance count is within the rolling-update bounds of the
ServiceTarget. -/
def inHealthyBounds (t : ServiceTarget) (s : RolloutState) : Prop :=
  minBound t ≤ healthyTotal s ∧ healthyTotal s ≤ maxBound t

instance (t : ServiceTarget) (s : RolloutState) :
    Decidable (inHealthyBounds t s) :=
  inferInstanceAs
    (Decidable (minBound t ≤ healthyTotal s ∧ healthyTotal s ≤ maxBound t))

/-- One replacement step keeps the healthy count within the bounds. -/
theorem rolloutStep_inBounds (t : ServiceTarget) (s : RolloutState)
    (h : inHealthyBounds t s) : inHealthyBounds t (rolloutStep t s) := by
  obtain ⟨h1, h2⟩ := h
  unfold rolloutStep
  split
  next hc =>
    simp only [Bool.and_eq_true, decide_eq_true_eq] at hc
    constructor <;> simp only [healthyTotal] at * <;> omega
  next =>
    split
    next hc2 =>
      simp only [Bool.and_eq_true, decide_eq_true_eq] at hc2
      constructor <;> simp only [healthyTotal] at * <;> omega
    next => exact ⟨h1, h2⟩

/-- One step of the dynamics (healthy or not) keeps the bounds. -/
theorem rolloutDynStep_inBounds (t : ServiceTarget) (hb : Bool)
    (s : RolloutState) (h : inHealthyBounds t s) :
    inHealthyBounds t (rolloutDynStep t hb s) := by
  cases hb
  · simpa [rolloutDynStep] using h
  · simpa [rolloutDynStep] using rolloutStep_inBounds t s h

/-- The whole rollout keeps the healthy count within the bounds. -/
theorem rolloutRun_inBounds (t : ServiceTarget) (hb : Bool) (n : Nat) :
    ∀ s, inHealthyBounds t s → inHealthyBounds t (rolloutRun t hb n s) := by
  induction n with
  | zero => intro s hs; exact hs
  | succ n ih =>
    intro s hs
    exact ih (rolloutDynStep t hb s) (rolloutDynStep_inBounds t hb s hs)

/-- A converged rollout state is a fixpoint of the dynamics. -/
theorem converged_dynStep (t : ServiceTarget) (hb : Bool) (s : RolloutState)
    (h : converged t s = true) : rolloutDynStep t hb s = s := by
  simp only [converged, Bool.and_eq_true, beq_iff_eq] at h
  obtain ⟨h1, h2⟩ := h
  cases hb
  · simp [rolloutDynStep]
  · simp [rolloutDynStep, rolloutStep, h1, h2]

/-- A converged rollout state stays put for any number of steps. -/
theorem converged_run (t : ServiceTarget) (hb : Bool) (n : Nat) :
    ∀ s, converged t s = true → rolloutRun t hb n s = s := by
  induction n with
  | zero => intro s _; rfl
  | succ n ih =>
    intro s h
    simp only [rolloutRun, converged_dynStep t hb s h]
    exact ih s h

/-- Splitting a rollout run into two legs. -/
theorem rolloutRun_add (t : ServiceTarget) (hb : Bool) (m n : Nat) :
    ∀ s, rolloutRun t hb (m + n) s = rolloutRun t hb n (rolloutRun t hb m s) := by
  induction m with
  | zero => intro s; simp [rolloutRun]
  | succ m ih =>
    intro s
    have hmn : m + 1 + n = (m + n) + 1 := by omega
    rw [hmn]
    simp only [rolloutRun]
    exact ih (rolloutDynStep t hb s)

/-! ## Scheduler lemmas -/

theorem countRunning_cons (e : ExecPhase) (l : List ExecPhase) :
    countRunning (e :: l) =
      (if e == ExecPhase.running then 1 else 0) + countRunning l := by
  simp only [countRunning, List.filter_cons]
  split
  · simp only [List.length_cons]
    omega
  · simp

theorem countRunning_append (l1 l2 : List ExecPhase) :
    countRunning (l1 ++ l2) = countRunning l1 + countRunning l2 := by
  simp [countRunning, List.filter_append]

/-- Promoting the first pending Execution raises the running count by at
most one. -/
theorem countRunning_promoteFirstPending (l : List ExecPhase) :
    countRunning (promoteFirstPending l) ≤ countRunning l + 1 := by
  induction l with
  | nil => simp [promoteFirstPending, countRunning]
  | cons e rest ih =>
    cases e <;> simp [promoteFirstPending, countRunning_cons] <;> omega

/-- Marking the running Execution terminal leaves nothing running. -/
theorem countRunning_finish (l : List ExecPhase) :
    countRunning
      (l.map (fun e => if e == ExecPhase.running then ExecPhase.done else e)) = 0 := by
  induction l with
  | nil => rfl
  | cons e rest ih =>
    rw [List.map_cons, countRunning_cons]
    cases e <;> simpa using ih

/-- Guarded promotion never yields more than one running Execution. -/
theorem countRunning_promote (l : List ExecPhase)
    (h : countRunning l ≤ 1) : countRunning (promote l) ≤ 1 := by
  unfold promote
  split
  next h0 =>
    have h0' : countRunning l = 0 := by simpa using h0
    have := countRunning_promoteFirstPending l
    omega
  next => exact h

/-- Each scheduler transition preserves the at-most-one-running invariant. -/
theorem countRunning_schedStep (l : List ExecPhase) (e : SchedEvent)
    (h : countRunning l ≤ 1) : countRunning (schedStep l e) ≤ 1 := by
  cases e
  · apply countRunning_promote
    rw [countRunning_append]
    simpa [countRunning] using h
  · apply countRunning_promote
    rw [countRunning_finish]
    exact Nat.zero_le 1

/-- The invariant holds along any event sequence. -/
theorem countRunning_foldl (evts : List SchedEvent) :
    ∀ l, countRunning l ≤ 1 →
      countRunning (evts.foldl schedStep l) ≤ 1 := by
  induction evts with
  | nil => intro l h; exact h
  | cons e rest ih =>
    intro l h
    exact ih (schedStep l e) (countRunning_schedStep l e h)

/-! ## Claims -/

/-- C1: the claim states that in every pipeline variant the final
application-deploy operation consumes the artifact produced by the Build
stage.  The code violates it: in the first `src/unnamed/part_000` variant
the final Deploy stage's `CDK_Deploy` action consumes the source artifact
`InfraSourceOutput` (lines 148-158) even though the Build-Container stage
declared `BuildOutput`, and the second `src/lib` variant has no
application-deploy action at all (lines 446-460) — only the first `src/lib`
variant and the second `src/unnamed/part_000` variant deploy `BuildOutput`
as the claim demands. -/
theorem c1_final_deploy_input_evaluation :
    (pipelineLibVariant1.stages.getLast?.map stageInputs = some ["BuildOutput"]) ∧
    (pipelineUnnamedVariant2.stages.getLast?.map stageInputs = some ["BuildOutput"]) ∧
    (pipelineUnnamedVariant1.stages.getLast?.map Stage.stageName = some "Deploy") ∧
    (pipelineUnnamedVariant1.stages.getLast?.map stageInputs =
      some ["InfraSourceOutput"]) ∧
    (pipelineUnnamedVariant1.stages.getLast?.map
      (fun st => (stageInputs st).contains "BuildOutput") = some false) ∧
    ((pipelineUnnamedVariant1.stages.map stageOutputs).flatten.contains
      "BuildOutput" = true) ∧
    (pipelineLibVariant2.stages.all
      (fun st => st.actions.all
        (fun a => !(a.kind == ActionKind.ecsDeploy))) = true) := by
  decide

/-- C2: the engine executes the stage list strictly sequentially — when
stage number `j` (0-based) starts, every stage before it succeeded, and the
actions an Execution invokes are exactly those of the started stage
prefix. -/
theorem c2_stages_strictly_sequential (p : Pipeline) (outcome : String → Bool)
    (j : Nat) (h : j < (startedStages outcome p.stages).length) :
    (∀ st ∈ p.stages.take j, stageOk outcome st = true) ∧
    (runExec outcome p).invoked =
      ((startedStages outcome p.stages).map stageActionNames).flatten := by
  constructor
  · exact startedStages_take outcome p.stages j h
  · simpa [runExec] using runStages_invoked outcome p.stages [] []

/-- Witness for C2 at the second `src/unnamed/part_000` pipeline with every
action succeeding and `j = 3` (the Deploy stage). -/
theorem c2_stages_strictly_sequential_witness :
    (∀ st ∈ pipelineUnnamedVariant2.stages.take 3,
      stageOk (fun _ => true) st = true) ∧
    (runExec (fun _ => true) pipelineUnnamedVariant2).invoked =
      ((startedStages (fun _ => true) pipelineUnnamedVariant2.stages).map
        stageActionNames).flatten :=
  c2_stages_strictly_sequential pipelineUnnamedVariant2 (fun _ => true) 3
    (by decide)

/-- C3: on the `[Source, Test, Build, Deploy]` pipeline (the second
`src/unnamed/part_000` variant), if the Test action `Run_Tests` fails, the
Execution is `Failed` with failed stage `Test`, the Build and Deploy
actions are never invoked, and no `BuildOutput` artifact exists in the
store for that Execution. -/
theorem c3_test_failure_fails_fast :
    ((runExec (fun n => !(n == "Run_Tests")) pipelineUnnamedVariant2).status =
      ExecStatus.Failed "Test") ∧
    ((runExec (fun n => !(n == "Run_Tests")) pipelineUnnamedVariant2).invoked.contains
      "Build_Docker_Image" = false) ∧
    ((runExec (fun n => !(n == "Run_Tests")) pipelineUnnamedVariant2).invoked.contains
      "Deploy_to_ECS" = false) ∧
    ((runExec (fun n => !(n == "Run_Tests")) pipelineUnnamedVariant2).artifacts.contains
      "BuildOutput" = false) := by
  decide

/-- C4: the claim states that no secret value ever appears literally in an
Action environment.  The code violates it: three of the four variants bind
the credential key `DOCKER_HUB_PASSWORD` of the `Docker_Build` action to
the literal password string (only the second `src/unnamed/part_000`
variant is clean); the GitHub token, by contrast, is referenced by name. -/
theorem c4_literal_secret_environment_evaluation :
    (literalSecretEnvEntries pipelineLibVariant1 =
      [("Docker_Build", "DOCKER_HUB_PASSWORD")]) ∧
    (literalSecretEnvEntries pipelineLibVariant2 =
      [("Docker_Build", "DOCKER_HUB_PASSWORD")]) ∧
    (literalSecretEnvEntries pipelineUnnamedVariant1 =
      [("Docker_Build", "DOCKER_HUB_PASSWORD")]) ∧
    (literalSecretEnvEntries pipelineUnnamedVariant2 = []) ∧
    (("DOCKER_HUB_PASSWORD", EnvValue.literal "ashishchaudhary-12345")
      ∈ dockerBuildEnvLib1) ∧
    (("oauthToken", EnvValue.secretRef "github-token") ∈ githubOauthEnv) := by
  decide

/-- C5 counterexample: the claim says the artifacts visible to stage `N+1`
are exactly the outputs of stage `N`.  In the second `src/unnamed/part_000`
pipeline, stage 2 (Build) consumes `AppSourceOutput`, which is visible in
the store although it is not among the outputs of stage 1 (Test) — it was
produced by stage 0 (Source) — and the checked run still succeeds. -/
theorem c5_visibility_not_only_previous_stage :
    ((availBefore (fun _ => true) pipelineUnnamedVariant2 2).contains
      "AppSourceOutput" = true) ∧
    ((pipelineUnnamedVariant2.stages[1]?).map
      (fun st => (stageOutputs st).contains "AppSourceOutput") = some false) ∧
    ((pipelineUnnamedVariant2.stages[2]?).map
      (fun st => (stageInputs st).contains "AppSourceOutput") = some true) ∧
    (runChecked (fun _ => true) pipelineUnnamedVariant2 =
      CheckedStatus.succeeded) := by
  decide

/-- C5 amended: the artifacts visible to stage `N+1` of an Execution are
exactly the union of the outputs declared by the actions of all earlier
stages of that same Execution (each Execution runs against its own store,
so nothing from another Execution is visible). -/
theorem c5_visibility_prefix_union (outcome : String → Bool) (p : Pipeline)
    (k : Nat) (h : ∀ st ∈ p.stages.take k, stageOk outcome st = true) :
    availBefore outcome p k = ((p.stages.take k).map stageOutputs).flatten := by
  unfold availBefore
  simpa using runStages_artifacts_all_ok outcome (p.stages.take k) h [] []

/-- Witness for the amended C5 at the second `src/unnamed/part_000`
pipeline, all actions succeeding, entering stage 2. -/
theorem c5_visibility_prefix_union_witness :
    availBefore (fun _ => true) pipelineUnnamedVariant2 2 =
      ((pipelineUnnamedVariant2.stages.take 2).map stageOutputs).flatten :=
  c5_visibility_prefix_union (fun _ => true) pipelineUnnamedVariant2 2
    (by decide)

/-- C6: throughout a rolling update the healthy-instance count stays within
`[ceil(desiredCount*minHealthyPercent/100),
floor(desiredCount*maxHealthyPercent/100)]`, and on the declared
WordPress service (desiredCount 2, min 50%, max 200%) with passing health
checks the rollout reaches 2/2 healthy on the new image without ever
dropping below 1 healthy instance. -/
theorem c6_rolling_update_healthy_bounds :
    (∀ (t : ServiceTarget) (hb : Bool) (s : RolloutState) (n : Nat),
      inHealthyBounds t s → inHealthyBounds t (rolloutRun t hb n s)) ∧
    (rolloutRun wordpressServiceTarget true 4
      { oldHealthy := 2, newHealthy := 0 } =
      { oldHealthy := 0, newHealthy := 2 }) ∧
    (∀ k, k ≤ 4 → 1 ≤ healthyTotal (rolloutRun wordpressServiceTarget true k
      { oldHealthy := 2, newHealthy := 0 })) := by
  refine ⟨fun t hb s n hs => rolloutRun_inBounds t hb n s hs, by decide, by decide⟩

/-- Witness for C6 at the declared WordPress ServiceTarget after three
steps of a healthy rollout. -/
theorem c6_rolling_update_healthy_bounds_witness :
    inHealthyBounds wordpressServiceTarget
      (rolloutRun wordpressServiceTarget true 3
        { oldHealthy := 2, newHealthy := 0 }) :=
  c6_rolling_update_healthy_bounds.1 wordpressServiceTarget true
    { oldHealthy := 2, newHealthy := 0 } 3 (by decide)

/-- C7: a rollout reports `succeeded` exactly when 100% of `desiredCount`
instances are healthy on the new image (and the old ones are gone) within
the deployment timeout; on failure the controller leaves the ServiceTarget
as-is (still pointing at the new image) and only records the prior image;
rollback is a distinct operation that redeploys the recorded prior
reference through the same algorithm. -/
theorem c7_rollout_result_iff_converged (t : ServiceTarget) (img : String)
    (healthOk : Bool) (timeout : Nat) :
    ((runRollout t img healthOk timeout).result = RolloutResult.succeeded ↔
      ∃ k, k ≤ timeout ∧ converged t (rolloutRun t healthOk k
        { oldHealthy := t.desiredCount, newHealthy := 0 }) = true) ∧
    ((runRollout t img healthOk timeout).result = RolloutResult.failed →
      (runRollout t img healthOk timeout).serviceImage = img) ∧
    ((runRollout t img healthOk timeout).rollbackCandidate = t.imageRef) ∧
    (∀ hb2 n2, rollback t (runRollout t img healthOk timeout) hb2 n2 =
      runRollout t t.imageRef hb2 n2) := by
  refine ⟨?_, fun _ => rfl, rfl, fun hb2 n2 => rfl⟩
  unfold runRollout
  constructor
  · intro hres
    refine ⟨timeout, Nat.le_refl timeout, ?_⟩
    by_contra hc
    simp only [Bool.not_eq_true] at hc
    simp [hc] at hres
  · rintro ⟨k, hk, hconv⟩
    obtain ⟨m, rfl⟩ : ∃ m, timeout = k + m := ⟨timeout - k, by omega⟩
    have hfinal : rolloutRun t healthOk (k + m)
        { oldHealthy := t.desiredCount, newHealthy := 0 } =
        rolloutRun t healthOk k
          { oldHealthy := t.desiredCount, newHealthy := 0 } := by
      rw [rolloutRun_add]
      exact converged_run t healthOk m _ hconv
    simp [hfinal, hconv]

/-- Witness for C7 on the declared WordPress ServiceTarget: a healthy
rollout within 10 steps converges. -/
theorem c7_rollout_result_iff_converged_witness :
    ∃ k, k ≤ 10 ∧ converged wordpressServiceTarget
      (rolloutRun wordpressServiceTarget true k
        { oldHealthy := 2, newHealthy := 0 }) = true :=
  (c7_rollout_result_iff_converged wordpressServiceTarget
    "my-wordpress-app:new" true 10).1.mp (by decide)

/-- C8: at most one Execution of a Pipeline is ever running — along every
event sequence the scheduler keeps the running count at or below one, and
in the two-triggers scenario the second Execution stays pending while the
first runs and becomes the running one only once the first terminates. -/
theorem c8_executions_serialized :
    (∀ evts : List SchedEvent, countRunning (schedRun evts) ≤ 1) ∧
    (schedRun [SchedEvent.trigger, SchedEvent.trigger] =
      [ExecPhase.running, ExecPhase.pending]) ∧
    (schedRun [SchedEvent.trigger, SchedEvent.trigger,
      SchedEvent.finishRunning] = [ExecPhase.done, ExecPhase.running]) := by
  refine ⟨fun evts => countRunning_foldl evts [] (by decide), by decide, by decide⟩

/-- C9: all four declared pipelines pass build-time wiring validation, and
for any pipeline that does, the checked runner's `missingInput` fail-fast
branch is unreachable whatever the action outcomes. -/
theorem c9_missing_input_unreachable :
    (allPipelineVariants.all wellWired = true) ∧
    (∀ (p : Pipeline) (outcome : String → Bool) (s : String),
      wellWired p = true →
      runChecked outcome p ≠ CheckedStatus.missingInput s) := by
  refine ⟨by decide, fun p outcome s hw => ?_⟩
  exact runCheckedStages_not_missing outcome p.stages [] hw s

/-- Witness for C9 at the first `src/unnamed/part_000` pipeline. -/
theorem c9_missing_input_unreachable_witness :
    runChecked (fun _ => true) pipelineUnnamedVariant1 ≠
      CheckedStatus.missingInput "Deploy" :=
  c9_missing_input_unreachable.2 pipelineUnnamedVariant1 (fun _ => true)
    "Deploy" (by decide)

/-- C10: in both variants that declare a `TestOutput` artifact (the first
`src/lib` variant and the second `src/unnamed/part_000` variant), no
action of any stage consumes `TestOutput`, and the Build stage's action
takes the original `AppSourceOutput` source artifact as its input. -/
theorem c10_test_output_not_consumed :
    ((pipelineLibVariant1.stages.map stageOutputs).flatten.contains
      "TestOutput" = true) ∧
    (pipelineLibVariant1.stages.all
      (fun st => !(stageInputs st).contains "TestOutput") = true) ∧
    ((pipelineUnnamedVariant2.stages.map stageOutputs).flatten.contains
      "TestOutput" = true) ∧
    (pipelineUnnamedVariant2.stages.all
      (fun st => !(stageInputs st).contains "TestOutput") = true) ∧
    ((pipelineLibVariant1.stages[3]?).map stageInputs =
      some ["AppSourceOutput"]) ∧
    ((pipelineLibVariant1.stages[3]?).map Stage.stageName =
      some "Build-Container") ∧
    ((pipelineUnnamedVariant2.stages[2]?).map stageInputs =
      some ["AppSourceOutput"]) ∧
    ((pipelineUnnamedVariant2.stages[2]?).map Stage.stageName =
      some "Build") := by
  decide

end WordpressInfra
